import Mathlib

/-!
Shallow embedding of the BuzzHire attendance backend
(`src/buzzhire_backend/buzz/views.py`): the branch-proximity helpers and
the three attendance views (`PunchInView.post`, `PunchOutView.post`,
`TodayAttendanceView.get`).

Modelling choices:
* Python floats are modelled as rationals (`Rat`); the logic only
  compares and copies them.
* `datetime.now()` / `date.today()` are modelled by an injected
  `Timestamp` (a calendar day plus a tick within the day);
  `punch_in_time__date` is the `day` field.
* The Django record store (`Attendance.objects`) is a `List Attendance`
  in insertion order; `create` appends with the next primary key,
  `save` replaces the row(s) with the record's id.
* `BRANCHES`, `PUNCH_RADIUS` and `calculate_distance` live in modules
  that only the views import (`.constants`, `.utils.distance_utils`);
  they are injected as an explicit `Config` value, so every theorem
  quantifies over the configuration.
* A Django `Response` is modelled by the `PunchResponse` inductive;
  unhandled Python exceptions (a `ValueError` from `float(...)`, or
  subscripting `None` when `BRANCHES` is empty) are `internalError`.
-/

/-- A timestamp: calendar day plus a tick inside the day.
`punch_in_time__date = today` compares the `day` fields. -/
structure Timestamp where
  day : Nat
  tick : Nat
deriving DecidableEq, Repr

/-- One row of the `Attendance` table, with the fields the views read
and write.  `punch_in_time` is set on creation and never null. -/
structure Attendance where
  id : Nat
  user : Nat
  punch_in_time : Timestamp
  punch_in_lat : Rat
  punch_in_lon : Rat
  punch_out_time : Option Timestamp
  punch_out_lat : Option Rat
  punch_out_lon : Option Rat
deriving DecidableEq, Repr

/-- One configured branch: a name and a coordinate. -/
structure Branch where
  name : String
  lat : Rat
  lon : Rat
deriving DecidableEq, Repr

/-- The configuration the views import: the branch list, the acceptance
radius, and the distance function `calculate_distance(lat1, lon1, lat2,
lon2)`. -/
structure Config where
  BRANCHES : List Branch
  PUNCH_RADIUS : Rat
  calculate_distance : Rat → Rat → Rat → Rat → Rat

/-- A value found under a key of `request.data`: either a number
(something `float(...)` accepts) or a malformed payload on which
`float(...)` raises. -/
inductive RawValue where
  | num (q : Rat)
  | malformed (s : String)
deriving DecidableEq, Repr

/-- `float(x)`: `some` of the numeric value, `none` when Python would
raise `ValueError`. -/
def pyFloat : RawValue → Option Rat
  | .num q => some q
  | .malformed _ => none

/-- The request body of a punch call: each key may be absent. -/
structure Request where
  latitude : Option RawValue
  longitude : Option RawValue
deriving DecidableEq, Repr

/-- The observable outcome of a punch view, one constructor per
`return Response(...)` site plus `internalError` for an unhandled
exception. -/
inductive PunchResponse where
  | validationError
  | outOfRange (branch : String) (distance : Rat)
  | alreadyPunchedIn (record : Attendance)
  | notPunchedIn
  | success (message : String) (branch : String) (distance : Rat) (record : Attendance)
  | internalError
deriving DecidableEq, Repr

/-- `round(x, 2)`: round to two decimal places.  For `q = n/d` (with
`d > 0`) this is `⌊100q + 1/2⌋ / 100 = ⌊(200n + d) / (2d)⌋ / 100`,
computed on the numerator/denominator representation.  (Round half up;
Python rounds exact halves to even, but no claim touches a tie.) -/
def round2 (q : Rat) : Rat :=
  Rat.divInt ((200 * q.num + (q.den : Int)).fdiv (2 * (q.den : Int))) 100

/-- The nearest-branch loop shared verbatim by `PunchInView.post` and
`PunchOutView.post`: the accumulator is `(nearest_branch,
nearest_distance)`, starting from `(None, float("inf"))` (here `none`),
replaced whenever `dist < nearest_distance` (strict, so ties keep the
earlier branch). -/
def findNearestLoop (cfg : Config) (user_lat user_lon : Rat) :
    Option (Branch × Rat) → List Branch → Option (Branch × Rat)
  | acc, [] => acc
  | acc, b :: rest =>
      let dist := cfg.calculate_distance user_lat user_lon b.lat b.lon
      match acc with
      | none => findNearestLoop cfg user_lat user_lon (some (b, dist)) rest
      | some (nb, nd) =>
          findNearestLoop cfg user_lat user_lon
            (if dist < nd then some (b, dist) else some (nb, nd)) rest

/-- Nearest branch and its distance over the configured branches;
`none` exactly when `BRANCHES` is empty (then the views would subscript
`None` and raise). -/
def findNearest (cfg : Config) (user_lat user_lon : Rat) : Option (Branch × Rat) :=
  findNearestLoop cfg user_lat user_lon none cfg.BRANCHES

/-- Loop of `detect_branch`: return on the FIRST branch whose distance
is within `PUNCH_RADIUS` (inclusive), else fall through. -/
def detect_branch_loop (cfg : Config) (user_lat user_lon : Rat) :
    List Branch → Bool × Option String × Option Rat
  | [] => (false, none, none)
  | b :: rest =>
      let dist := cfg.calculate_distance user_lat user_lon b.lat b.lon
      if dist ≤ cfg.PUNCH_RADIUS then (true, some b.name, some dist)
      else detect_branch_loop cfg user_lat user_lon rest

/-- `detect_branch(user_lat, user_lon)`: `(True, branch_name, distance)`
for the first in-range branch, else `(False, None, None)`. -/
def detect_branch (cfg : Config) (user_lat user_lon : Rat) :
    Bool × Option String × Option Rat :=
  detect_branch_loop cfg user_lat user_lon cfg.BRANCHES

/-- Pick the row with the greatest `id` (first such row on duplicate
ids): models `.order_by(-id).first()` on an already filtered queryset. -/
def pickMaxId : Option Attendance → List Attendance → Option Attendance
  | acc, [] => acc
  | none, a :: rest => pickMaxId (some a) rest
  | some m, a :: rest => pickMaxId (if a.id > m.id then some a else some m) rest

/-- Pick the row with the least `id` (first such row on duplicate ids):
models `.first()` with no ordering, which Django orders by primary
key. -/
def pickMinId : Option Attendance → List Attendance → Option Attendance
  | acc, [] => acc
  | none, a :: rest => pickMinId (some a) rest
  | some m, a :: rest => pickMinId (if a.id < m.id then some a else some m) rest

/-- The queryset `Attendance.objects.filter(user=user,
punch_in_time__date=today)`. -/
def todayRows (db : List Attendance) (user : Nat) (today : Nat) : List Attendance :=
  db.filter (fun a => a.user == user && a.punch_in_time.day == today)

/-- `filter(user=user, punch_in_time__date=today).order_by(-id).first()`
— the record selection of `PunchInView.post` and
`TodayAttendanceView.get`. -/
def latestToday (db : List Attendance) (user : Nat) (today : Nat) : Option Attendance :=
  pickMaxId none (todayRows db user today)

/-- The queryset `filter(user=user, punch_in_time__date=today,
punch_out_time__isnull=True)`. -/
def activeTodayRows (db : List Attendance) (user : Nat) (today : Nat) : List Attendance :=
  db.filter (fun a =>
    a.user == user && a.punch_in_time.day == today && a.punch_out_time.isNone)

/-- `filter(user=user, punch_in_time__date=today,
punch_out_time__isnull=True).first()` — the record selection of
`PunchOutView.post`.  With no `order_by`, Django's `first()` orders by
primary key, so this is the LOWEST id among active rows. -/
def firstActiveToday (db : List Attendance) (user : Nat) (today : Nat) : Option Attendance :=
  pickMinId none (activeTodayRows db user today)

/-- The next primary key the store assigns on `create`. -/
def nextId (db : List Attendance) : Nat :=
  (db.foldl (fun m a => max m a.id) 0) + 1

/-- `attendance.save()`: replace the row(s) carrying this record's id. -/
def saveRecord (db : List Attendance) (a : Attendance) : List Attendance :=
  db.map (fun r => if r.id == a.id then a else r)

/-- `PunchInView.post`, as a function of the configuration, the store,
the authenticated user, the clock, and the request body.  Returns the
response and the store after the call. -/
def punchIn (cfg : Config) (db : List Attendance) (user : Nat) (now : Timestamp)
    (req : Request) : PunchResponse × List Attendance :=
  match req.latitude, req.longitude with
  | some rawLat, some rawLon =>
      match pyFloat rawLat, pyFloat rawLon with
      | some user_lat, some user_lon =>
          let today := now.day
          let attendance := latestToday db user today
          match findNearest cfg user_lat user_lon with
          | none => (.internalError, db)
          | some (nearest_branch, nearest_distance) =>
              if nearest_distance > cfg.PUNCH_RADIUS then
                (.outOfRange nearest_branch.name (round2 nearest_distance), db)
              else
                match attendance with
                | some att =>
                    match att.punch_out_time with
                    | none => (.alreadyPunchedIn att, db)
                    | some _ =>
                        let att2 : Attendance :=
                          { att with
                            punch_in_time := now
                            punch_in_lat := user_lat
                            punch_in_lon := user_lon
                            punch_out_time := none
                            punch_out_lat := none
                            punch_out_lon := none }
                        (.success ("Punch in updated successfully" ++ " at " ++ nearest_branch.name)
                          nearest_branch.name (round2 nearest_distance) att2,
                          saveRecord db att2)
                | none =>
                    let att2 : Attendance :=
                      { id := nextId db
                        user := user
                        punch_in_time := now
                        punch_in_lat := user_lat
                        punch_in_lon := user_lon
                        punch_out_time := none
                        punch_out_lat := none
                        punch_out_lon := none }
                    (.success ("Punch in successful" ++ " at " ++ nearest_branch.name)
                      nearest_branch.name (round2 nearest_distance) att2,
                      db ++ [att2])
      | _, _ => (.internalError, db)
  | _, _ => (.validationError, db)

/-- `PunchOutView.post`: validate, parse, find the active punch-in,
then resolve the nearest branch, range-check, and save the punch-out. -/
def punchOut (cfg : Config) (db : List Attendance) (user : Nat) (now : Timestamp)
    (req : Request) : PunchResponse × List Attendance :=
  match req.latitude, req.longitude with
  | some rawLat, some rawLon =>
      match pyFloat rawLat, pyFloat rawLon with
      | some user_lat, some user_lon =>
          let today := now.day
          match firstActiveToday db user today with
          | none => (.notPunchedIn, db)
          | some attendance =>
              match findNearest cfg user_lat user_lon with
              | none => (.internalError, db)
              | some (nearest_branch, distance) =>
                  if distance > cfg.PUNCH_RADIUS then
                    (.outOfRange nearest_branch.name (round2 distance), db)
                  else
                    let att2 : Attendance :=
                      { attendance with
                        punch_out_time := some now
                        punch_out_lat := some user_lat
                        punch_out_lon := some user_lon }
                    (.success "Punch out successful" nearest_branch.name
                      (round2 distance) att2, saveRecord db att2)
      | _, _ => (.internalError, db)
  | _, _ => (.validationError, db)

/-- The body of `TodayAttendanceView.get`'s response: the status flags
and the raw timestamps (branch is `getattr(..., "branch_name", None)`,
always `None` on this model; distance is never reported here). -/
structure StatusView where
  is_punched_in : Bool
  has_punched_out : Bool
  punch_in_time : Option Timestamp
  punch_out_time : Option Timestamp
  branch : Option String
  distance : Option Rat
deriving DecidableEq, Repr

/-- `TodayAttendanceView.get`: a pure projection of the store — it
returns a `StatusView` and touches no record. -/
def get_today_status (db : List Attendance) (user : Nat) (today : Nat) : StatusView :=
  match latestToday db user today with
  | none =>
      { is_punched_in := false
        has_punched_out := false
        punch_in_time := none
        punch_out_time := none
        branch := none
        distance := none }
  | some attendance =>
      let is_punched_in := true
      let has_punched_out := attendance.punch_out_time.isSome
      { is_punched_in := is_punched_in && !has_punched_out
        has_punched_out := has_punched_out
        punch_in_time := some attendance.punch_in_time
        punch_out_time := attendance.punch_out_time
        branch := none
        distance := none }

/-- Abbreviation for statements: the distance from the user coordinate
to a branch under a configuration. -/
def branchDist (cfg : Config) (user_lat user_lon : Rat) (b : Branch) : Rat :=
  cfg.calculate_distance user_lat user_lon b.lat b.lon

/-! Concrete fixtures for witnesses and counterexamples.  The views
treat `calculate_distance` as a black box, so a scenario can encode
each branch's distance to everybody in the branch's `lat` field. -/

/-- Scenario distance function: the branch's `lat` field is its
distance to every user coordinate. -/
def distByLat (_user_lat _user_lon b_lat _b_lon : Rat) : Rat := b_lat

/-- A branch at distance 50 from everywhere (under `distByLat`). -/
def branchA : Branch := ⟨"A", 50, 0⟩

/-- A branch at distance 80 from everywhere (under `distByLat`). -/
def branchB : Branch := ⟨"B", 80, 0⟩

/-- A branch at distance 150 from everywhere (under `distByLat`). -/
def branchFar : Branch := ⟨"Far", 150, 0⟩

/-- Two branches, radius 100: distances 50 and 80, both in range. -/
def cfgNear : Config := ⟨[branchA, branchB], 100, distByLat⟩

/-- One branch at distance 150, radius 100: nobody is in range. -/
def cfgFar : Config := ⟨[branchFar], 100, distByLat⟩

/-- A request with well-formed coordinates. -/
def reqNum : Request := ⟨some (.num 50), some (.num 0)⟩

/-- A request whose latitude is present but not a number. -/
def reqBadLat : Request := ⟨some (.malformed "abc"), some (.num 0)⟩

/-- A request with no latitude key. -/
def reqMissingLat : Request := ⟨none, some (.num 0)⟩

/-- An open (punched-in) row with id 1 for user 42 on day 7. -/
def recActive1 : Attendance := ⟨1, 42, ⟨7, 0⟩, 50, 0, none, none, none⟩

/-- A second open row with id 2 for the same user and day. -/
def recActive2 : Attendance := ⟨2, 42, ⟨7, 1⟩, 50, 0, none, none, none⟩

/-- A completed row (punched out) with id 1 for user 42 on day 7. -/
def recDone1 : Attendance := ⟨1, 42, ⟨7, 0⟩, 50, 0, some ⟨7, 2⟩, some 50, some 0⟩

/-! Theorems. -/

/-- The invariant of the nearest-branch loop, for a non-`none`
accumulator: the result either keeps the accumulator (then nothing in
the list beats it) or is the first element of the list attaining a
distance strictly below the accumulator's that nothing later strictly
beats. -/
theorem findNearestLoop_spec (cfg : Config) (ula ulo : Rat) :
    ∀ (bs : List Branch) (nb0 : Branch) (nd0 : Rat),
    ∃ nb nd, findNearestLoop cfg ula ulo (some (nb0, nd0)) bs = some (nb, nd) ∧
      ((nb = nb0 ∧ nd = nd0 ∧ ∀ b ∈ bs, nd0 ≤ branchDist cfg ula ulo b) ∨
       (∃ l1 l2, bs = l1 ++ nb :: l2 ∧ nd = branchDist cfg ula ulo nb ∧ nd < nd0 ∧
         (∀ b ∈ l1, nd < branchDist cfg ula ulo b) ∧
         (∀ b ∈ l2, nd ≤ branchDist cfg ula ulo b))) := by
  intro bs
  induction bs with
  | nil =>
      intro nb0 nd0
      exact ⟨nb0, nd0, rfl, Or.inl ⟨rfl, rfl, by simp⟩⟩
  | cons b rest ih =>
      intro nb0 nd0
      by_cases h : branchDist cfg ula ulo b < nd0
      · have hcmp : cfg.calculate_distance ula ulo b.lat b.lon < nd0 := h
        obtain ⟨nb, nd, heq, hc⟩ := ih b (branchDist cfg ula ulo b)
        refine ⟨nb, nd, ?_, ?_⟩
        · simpa [findNearestLoop, branchDist, hcmp] using heq
        · rcases hc with ⟨h1, h2, h3⟩ | ⟨l1, l2, hsplit, hnd, hlt, hl1, hl2⟩
          · refine Or.inr ⟨[], rest, by simp [h1], by rw [h2, h1], by rw [h2]; exact h,
              by simp, ?_⟩
            intro b2 hb2
            rw [h2]; exact h3 b2 hb2
          · refine Or.inr ⟨b :: l1, l2, by simp [hsplit], hnd, lt_trans hlt h, ?_, hl2⟩
            intro b2 hb2
            rcases List.mem_cons.1 hb2 with rfl | hb2
            · exact hlt
            · exact hl1 b2 hb2
      · have hcmp : ¬ cfg.calculate_distance ula ulo b.lat b.lon < nd0 := h
        obtain ⟨nb, nd, heq, hc⟩ := ih nb0 nd0
        refine ⟨nb, nd, ?_, ?_⟩
        · simpa [findNearestLoop, branchDist, hcmp] using heq
        · rcases hc with ⟨h1, h2, h3⟩ | ⟨l1, l2, hsplit, hnd, hlt, hl1, hl2⟩
          · refine Or.inl ⟨h1, h2, ?_⟩
            intro b2 hb2
            rcases List.mem_cons.1 hb2 with rfl | hb2
            · exact not_lt.1 h
            · exact h3 b2 hb2
          · refine Or.inr ⟨b :: l1, l2, by simp [hsplit], hnd, hlt, ?_, hl2⟩
            intro b2 hb2
            rcases List.mem_cons.1 hb2 with rfl | hb2
            · exact lt_of_lt_of_le hlt (not_lt.1 h)
            · exact hl1 b2 hb2

/-- Claim C6: on a non-empty branch configuration the nearest-branch
loop of `PunchInView.post` and `PunchOutView.post` returns a branch of
minimal distance together with that distance; on a tie the branch
encountered first in configuration order wins (every configured branch
strictly closer in order has a strictly larger distance).  The loop is
a pure function of the configuration and the coordinate, so equal
inputs give equal results. -/
theorem claim_C6 (cfg : Config) (ula ulo : Rat) (hne : cfg.BRANCHES ≠ []) :
    ∃ nb nd l1 l2, findNearest cfg ula ulo = some (nb, nd) ∧
      nd = branchDist cfg ula ulo nb ∧
      cfg.BRANCHES = l1 ++ nb :: l2 ∧
      (∀ b ∈ cfg.BRANCHES, nd ≤ branchDist cfg ula ulo b) ∧
      (∀ b ∈ l1, nd < branchDist cfg ula ulo b) := by
  obtain ⟨b, rest, hbs⟩ := List.exists_cons_of_ne_nil hne
  have hstep : findNearest cfg ula ulo =
      findNearestLoop cfg ula ulo (some (b, branchDist cfg ula ulo b)) rest := by
    rw [findNearest, hbs]
    rfl
  obtain ⟨nb, nd, heq, hc⟩ := findNearestLoop_spec cfg ula ulo rest b (branchDist cfg ula ulo b)
  rcases hc with ⟨h1, h2, h3⟩ | ⟨l1, l2, hsplit, hnd, hlt, hl1, hl2⟩
  · refine ⟨nb, nd, [], rest, by rw [hstep, heq], by rw [h2, h1], by simp [hbs, h1], ?_, by simp⟩
    intro b2 hb2
    rw [hbs] at hb2
    rcases List.mem_cons.1 hb2 with rfl | hb2
    · exact le_of_eq h2
    · rw [h2]; exact h3 b2 hb2
  · refine ⟨nb, nd, b :: l1, l2, by rw [hstep, heq], hnd, by rw [hbs, hsplit]; rfl, ?_, ?_⟩
    · intro b2 hb2
      rw [hbs] at hb2
      rcases List.mem_cons.1 hb2 with rfl | hb2
      · exact le_of_lt hlt
      · rw [hsplit] at hb2
        rcases List.mem_append.1 hb2 with hb2 | hb2
        · exact le_of_lt (hl1 b2 hb2)
        · rcases List.mem_cons.1 hb2 with rfl | hb2
          · exact le_of_eq hnd
          · exact hl2 b2 hb2
    · intro b2 hb2
      rcases List.mem_cons.1 hb2 with rfl | hb2
      · exact hlt
      · exact hl1 b2 hb2

/-- Witness for C6, on the spec's own scenario: branches at distances
50 and 80 with radius 100; the loop returns the 50-distance branch. -/
theorem claim_C6_witness :
    cfgNear.BRANCHES ≠ [] ∧
    (∃ nb nd l1 l2, findNearest cfgNear 0 0 = some (nb, nd) ∧
      nd = branchDist cfgNear 0 0 nb ∧
      cfgNear.BRANCHES = l1 ++ nb :: l2 ∧
      (∀ b ∈ cfgNear.BRANCHES, nd ≤ branchDist cfgNear 0 0 b) ∧
      (∀ b ∈ l1, nd < branchDist cfgNear 0 0 b)) :=
  ⟨by decide, claim_C6 cfgNear 0 0 (by decide)⟩

/-- The `detect_branch` loop returns on the first in-range branch. -/
theorem detect_branch_loop_first (cfg : Config) (ula ulo : Rat) :
    ∀ (l1 : List Branch) (b : Branch) (l2 : List Branch),
    (∀ b2 ∈ l1, cfg.PUNCH_RADIUS < branchDist cfg ula ulo b2) →
    branchDist cfg ula ulo b ≤ cfg.PUNCH_RADIUS →
    detect_branch_loop cfg ula ulo (l1 ++ b :: l2) =
      (true, some b.name, some (branchDist cfg ula ulo b)) := by
  intro l1
  induction l1 with
  | nil =>
      intro b l2 _ hb
      simp [detect_branch_loop, branchDist] at hb ⊢
      simp [hb]
  | cons c l1 ih =>
      intro b l2 h1 hb
      have hc : cfg.PUNCH_RADIUS < branchDist cfg ula ulo c := h1 c (by simp)
      have : ¬ cfg.calculate_distance ula ulo c.lat c.lon ≤ cfg.PUNCH_RADIUS :=
        not_le.2 hc
      simp only [List.cons_append, detect_branch_loop, this, if_false]
      exact ih b l2 (fun b2 hb2 => h1 b2 (List.mem_cons_of_mem c hb2)) hb

/-- The `detect_branch` loop falls through when every branch is out of
range. -/
theorem detect_branch_loop_none (cfg : Config) (ula ulo : Rat) :
    ∀ bs : List Branch,
    (∀ b ∈ bs, cfg.PUNCH_RADIUS < branchDist cfg ula ulo b) →
    detect_branch_loop cfg ula ulo bs = (false, none, none) := by
  intro bs
  induction bs with
  | nil => intro _; rfl
  | cons c rest ih =>
      intro h
      have hc : ¬ cfg.calculate_distance ula ulo c.lat c.lon ≤ cfg.PUNCH_RADIUS :=
        not_le.2 (h c (by simp))
      simp only [detect_branch_loop, hc, if_false]
      exact ih (fun b hb => h b (List.mem_cons_of_mem c hb))

/-- Claim C10: `detect_branch` returns `(True, name, distance)` for the
first branch in configuration order whose distance is within
`PUNCH_RADIUS` (inclusive) — every earlier branch being out of range —
and `(False, None, None)` when no configured branch is in range.  (So
the returned branch need not be the one of minimum distance.) -/
theorem claim_C10 (cfg : Config) (ula ulo : Rat) :
    (∀ (l1 : List Branch) (b : Branch) (l2 : List Branch),
       cfg.BRANCHES = l1 ++ b :: l2 →
       (∀ b2 ∈ l1, cfg.PUNCH_RADIUS < branchDist cfg ula ulo b2) →
       branchDist cfg ula ulo b ≤ cfg.PUNCH_RADIUS →
       detect_branch cfg ula ulo = (true, some b.name, some (branchDist cfg ula ulo b)))
    ∧ ((∀ b ∈ cfg.BRANCHES, cfg.PUNCH_RADIUS < branchDist cfg ula ulo b) →
       detect_branch cfg ula ulo = (false, none, none)) := by
  constructor
  · intro l1 b l2 hsplit h1 hb
    rw [detect_branch, hsplit]
    exact detect_branch_loop_first cfg ula ulo l1 b l2 h1 hb
  · intro h
    rw [detect_branch]
    exact detect_branch_loop_none cfg ula ulo cfg.BRANCHES h

/-- `pickMaxId` from a `some` accumulator returns a row: the
accumulator or a list element, of id at least the accumulator's and at
least every list element's. -/
theorem pickMaxId_spec (l : List Attendance) :
    ∀ m : Attendance, ∃ a, pickMaxId (some m) l = some a ∧
      (a = m ∨ a ∈ l) ∧ m.id ≤ a.id ∧ ∀ b ∈ l, b.id ≤ a.id := by
  induction l with
  | nil => intro m; exact ⟨m, rfl, Or.inl rfl, le_refl _, by simp⟩
  | cons c l ih =>
      intro m
      by_cases h : c.id > m.id
      · obtain ⟨a, heq, hmem, hle, hall⟩ := ih c
        refine ⟨a, by simpa [pickMaxId, h] using heq, ?_, le_trans (le_of_lt h) hle, ?_⟩
        · rcases hmem with rfl | hmem
          · exact Or.inr (by simp)
          · exact Or.inr (List.mem_cons_of_mem c hmem)
        · intro b hb
          rcases List.mem_cons.1 hb with rfl | hb
          · exact hle
          · exact hall b hb
      · obtain ⟨a, heq, hmem, hle, hall⟩ := ih m
        refine ⟨a, by simpa [pickMaxId, h] using heq, ?_, hle, ?_⟩
        · rcases hmem with rfl | hmem
          · exact Or.inl rfl
          · exact Or.inr (List.mem_cons_of_mem c hmem)
        · intro b hb
          rcases List.mem_cons.1 hb with rfl | hb
          · exact le_trans (not_lt.1 h) hle
          · exact hall b hb

/-- `pickMaxId` from the empty accumulator returns a list element of
maximal id. -/
theorem pickMaxId_none_spec (l : List Attendance) :
    ∀ a, pickMaxId none l = some a → a ∈ l ∧ ∀ b ∈ l, b.id ≤ a.id := by
  cases l with
  | nil => intro a h; cases h
  | cons c l =>
      intro a h
      obtain ⟨a2, heq, hmem, hle, hall⟩ := pickMaxId_spec l c
      rw [show pickMaxId none (c :: l) = pickMaxId (some c) l from rfl, heq] at h
      cases h
      constructor
      · rcases hmem with rfl | hmem
        · simp
        · exact List.mem_cons_of_mem c hmem
      · intro b hb
        rcases List.mem_cons.1 hb with rfl | hb
        · exact hle
        · exact hall b hb

/-- `pickMaxId` from the empty accumulator answers `none` only on the
empty list. -/
theorem pickMaxId_eq_none (l : List Attendance) : pickMaxId none l = none → l = [] := by
  cases l with
  | nil => intro _; rfl
  | cons c l =>
      intro h
      obtain ⟨a, heq, _, _, _⟩ := pickMaxId_spec l c
      rw [show pickMaxId none (c :: l) = pickMaxId (some c) l from rfl, heq] at h
      cases h

/-- `pickMinId` from a `some` accumulator returns a row of id at most
the accumulator's and at most every list element's. -/
theorem pickMinId_spec (l : List Attendance) :
    ∀ m : Attendance, ∃ a, pickMinId (some m) l = some a ∧
      (a = m ∨ a ∈ l) ∧ a.id ≤ m.id ∧ ∀ b ∈ l, a.id ≤ b.id := by
  induction l with
  | nil => intro m; exact ⟨m, rfl, Or.inl rfl, le_refl _, by simp⟩
  | cons c l ih =>
      intro m
      by_cases h : c.id < m.id
      · obtain ⟨a, heq, hmem, hle, hall⟩ := ih c
        refine ⟨a, by simpa [pickMinId, h] using heq, ?_, le_trans hle (le_of_lt h), ?_⟩
        · rcases hmem with rfl | hmem
          · exact Or.inr (by simp)
          · exact Or.inr (List.mem_cons_of_mem c hmem)
        · intro b hb
          rcases List.mem_cons.1 hb with rfl | hb
          · exact hle
          · exact hall b hb
      · obtain ⟨a, heq, hmem, hle, hall⟩ := ih m
        refine ⟨a, by simpa [pickMinId, h] using heq, ?_, hle, ?_⟩
        · rcases hmem with rfl | hmem
          · exact Or.inl rfl
          · exact Or.inr (List.mem_cons_of_mem c hmem)
        · intro b hb
          rcases List.mem_cons.1 hb with rfl | hb
          · exact le_trans hle (not_lt.1 h)
          · exact hall b hb

/-- `pickMinId` from the empty accumulator returns a list element of
minimal id. -/
theorem pickMinId_none_spec (l : List Attendance) :
    ∀ a, pickMinId none l = some a → a ∈ l ∧ ∀ b ∈ l, a.id ≤ b.id := by
  cases l with
  | nil => intro a h; cases h
  | cons c l =>
      intro a h
      obtain ⟨a2, heq, hmem, hle, hall⟩ := pickMinId_spec l c
      rw [show pickMinId none (c :: l) = pickMinId (some c) l from rfl, heq] at h
      cases h
      constructor
      · rcases hmem with rfl | hmem
        · simp
        · exact List.mem_cons_of_mem c hmem
      · intro b hb
        rcases List.mem_cons.1 hb with rfl | hb
        · exact hle
        · exact hall b hb

/-- Membership in the `todayRows` queryset, unpacked. -/
theorem mem_todayRows (db : List Attendance) (user today : Nat) (a : Attendance) :
    a ∈ todayRows db user today ↔
      a ∈ db ∧ a.user = user ∧ a.punch_in_time.day = today := by
  simp [todayRows, List.mem_filter, and_assoc]

/-- Membership in the `activeTodayRows` queryset, unpacked. -/
theorem mem_activeTodayRows (db : List Attendance) (user today : Nat) (a : Attendance) :
    a ∈ activeTodayRows db user today ↔
      a ∈ db ∧ a.user = user ∧ a.punch_in_time.day = today ∧ a.punch_out_time = none := by
  simp [activeTodayRows, List.mem_filter, and_assoc, Option.isNone_iff_eq_none]

/-- Claim C9, as amended: `PunchInView.post` and
`TodayAttendanceView.get` select the HIGHEST-id record for (user,
today), but `PunchOutView.post` — whose queryset has no `order_by`, so
Django's `first()` orders by primary key ascending — selects the
LOWEST-id record among today's records with `punch_out_time` null. -/
theorem claim_C9 (db : List Attendance) (user today : Nat) :
    (∀ a, latestToday db user today = some a →
       a ∈ db ∧ a.user = user ∧ a.punch_in_time.day = today ∧
       ∀ b ∈ db, b.user = user → b.punch_in_time.day = today → b.id ≤ a.id)
    ∧ (∀ a, firstActiveToday db user today = some a →
       a ∈ db ∧ a.user = user ∧ a.punch_in_time.day = today ∧ a.punch_out_time = none ∧
       ∀ b ∈ db, b.user = user → b.punch_in_time.day = today → b.punch_out_time = none →
         a.id ≤ b.id) := by
  constructor
  · intro a h
    obtain ⟨hmem, hall⟩ := pickMaxId_none_spec _ a h
    obtain ⟨hdb, huser, hday⟩ := (mem_todayRows db user today a).1 hmem
    refine ⟨hdb, huser, hday, ?_⟩
    intro b hb hbu hbd
    exact hall b ((mem_todayRows db user today b).2 ⟨hb, hbu, hbd⟩)
  · intro a h
    obtain ⟨hmem, hall⟩ := pickMinId_none_spec _ a h
    obtain ⟨hdb, huser, hday, hout⟩ := (mem_activeTodayRows db user today a).1 hmem
    refine ⟨hdb, huser, hday, hout, ?_⟩
    intro b hb hbu hbd hbo
    exact hall b ((mem_activeTodayRows db user today b).2 ⟨hb, hbu, hbd, hbo⟩)

/-- Counterexample to C9 as stated: with two open rows (ids 1 and 2)
for the same user and day, punch-out operates on the id-1 row — not
the most recently created (highest-id) one, which the status view
returns. -/
theorem claim_C9_counterexample :
    firstActiveToday [recActive1, recActive2] 42 7 = some recActive1 ∧
    latestToday [recActive1, recActive2] 42 7 = some recActive2 ∧
    recActive1.id = 1 ∧ recActive2.id = 2 ∧ recActive1 ≠ recActive2 ∧
    (punchOut cfgNear [recActive1, recActive2] 42 ⟨7, 5⟩ reqNum).1 =
      .success "Punch out successful" branchA.name (round2 50)
        { recActive1 with
          punch_out_time := some ⟨7, 5⟩
          punch_out_lat := some 50
          punch_out_lon := some 0 } := by decide

/-- Witness for the amended C9, on the two-open-rows store: the
punch-out selection is the id-1 row, minimal among active rows. -/
theorem claim_C9_witness :
    recActive1 ∈ [recActive1, recActive2] ∧ recActive1.user = 42 ∧
    recActive1.punch_in_time.day = 7 ∧ recActive1.punch_out_time = none ∧
    (∀ b ∈ [recActive1, recActive2], b.user = 42 → b.punch_in_time.day = 7 →
       b.punch_out_time = none → recActive1.id ≤ b.id) :=
  (claim_C9 [recActive1, recActive2] 42 7).2 recActive1 (by decide)

/-- Witness for C10: with branches at distances 50 and 80 and radius
100, `detect_branch` answers with the first branch; with a single
branch at distance 150 it answers `(False, None, None)`. -/
theorem claim_C10_witness :
    detect_branch cfgNear 0 0 = (true, some branchA.name, some (branchDist cfgNear 0 0 branchA)) ∧
    detect_branch cfgFar 0 0 = (false, none, none) :=
  ⟨(claim_C10 cfgNear 0 0).1 [] branchA [branchB] rfl (by decide) (by decide),
   (claim_C10 cfgFar 0 0).2 (by decide)⟩

/-- Saving a record back never changes the list of ids: rows are
replaced in place, none added or removed. -/
theorem saveRecord_ids (db : List Attendance) (a : Attendance) :
    (saveRecord db a).map (fun r => r.id) = db.map (fun r => r.id) := by
  induction db with
  | nil => rfl
  | cons c db ih =>
      simp only [saveRecord, List.map_cons] at ih ⊢
      by_cases h : c.id = a.id
      · simpa [h] using ih
      · simpa [h] using ih

/-- Every stored row's id is strictly below the next assigned id. -/
theorem lt_nextId (db : List Attendance) : ∀ r ∈ db, r.id < nextId db := by
  have key : ∀ (l : List Attendance) (n : Nat),
      (∀ r ∈ l, r.id ≤ l.foldl (fun m a => max m a.id) n) ∧
      n ≤ l.foldl (fun m a => max m a.id) n := by
    intro l
    induction l with
    | nil => intro n; exact ⟨by simp, le_refl n⟩
    | cons c l ih =>
        intro n
        obtain ⟨h1, h2⟩ := ih (max n c.id)
        refine ⟨?_, le_trans (le_max_left _ _) h2⟩
        intro r hr
        rcases List.mem_cons.1 hr with rfl | hr
        · exact le_trans (le_max_right n r.id) h2
        · exact h1 r hr
  intro r hr
  have h := (key db 0).1 r hr
  simpa [nextId, Nat.lt_succ_iff] using h

/-- Saving a record whose id appears nowhere in the store leaves the
store unchanged. -/
theorem saveRecord_fresh (db : List Attendance) (a : Attendance) :
    (∀ r ∈ db, r.id ≠ a.id) → saveRecord db a = db := by
  induction db with
  | nil => intro _; rfl
  | cons c db ih =>
      intro h
      have hc : (c.id == a.id) = false := by
        simpa using h c (by simp)
      have ih2 := ih (fun r hr => h r (List.mem_cons_of_mem c hr))
      simp only [saveRecord, List.map_cons, hc, Bool.false_eq_true, if_false]
      simpa [saveRecord] using ih2

/-- The punch-out queryset is the punch-in queryset further filtered to
null `punch_out_time`. -/
theorem activeTodayRows_eq (db : List Attendance) (user today : Nat) :
    activeTodayRows db user today =
      (todayRows db user today).filter (fun a => a.punch_out_time.isNone) := by
  simp only [activeTodayRows, todayRows, List.filter_filter]
  apply List.filter_congr
  intro a _
  simp [Bool.and_comm, Bool.and_left_comm, Bool.and_assoc]

/-- Claim C1, as amended: with present, well-formed coordinates and a
non-empty branch configuration, punch-in fails with the out-of-range
rejection (carrying the nearest branch's name and rounded distance)
and leaves the store unchanged exactly when the nearest distance
strictly exceeds `PUNCH_RADIUS` (distance equal to the radius passes
the range check); punch-out satisfies the same biconditional provided
an active punch-in exists for (user, today) — otherwise it fails with
the not-punched-in rejection first, whatever the distance. -/
theorem claim_C1 (cfg : Config) (db : List Attendance) (user : Nat) (now : Timestamp)
    (rawLat rawLon : RawValue) (ula ulo : Rat) (nb : Branch) (nd : Rat)
    (hla : pyFloat rawLat = some ula) (hlo : pyFloat rawLon = some ulo)
    (hn : findNearest cfg ula ulo = some (nb, nd)) :
    (punchIn cfg db user now ⟨some rawLat, some rawLon⟩ =
        (.outOfRange nb.name (round2 nd), db) ↔ cfg.PUNCH_RADIUS < nd)
    ∧ (∀ att, firstActiveToday db user now.day = some att →
        (punchOut cfg db user now ⟨some rawLat, some rawLon⟩ =
          (.outOfRange nb.name (round2 nd), db) ↔ cfg.PUNCH_RADIUS < nd)) := by
  constructor
  · constructor
    · intro h
      by_contra hr
      cases hq : latestToday db user now.day with
      | none => simp [punchIn, hla, hlo, hn, hq, hr] at h
      | some att =>
          cases ho : att.punch_out_time with
          | none => simp [punchIn, hla, hlo, hn, hq, ho, hr] at h
          | some t => simp [punchIn, hla, hlo, hn, hq, ho, hr] at h
    · intro hr
      simp [punchIn, hla, hlo, hn, hr]
  · intro att hatt
    constructor
    · intro h
      by_contra hr
      simp [punchOut, hla, hlo, hn, hatt, hr] at h
    · intro hr
      simp [punchOut, hla, hlo, hn, hatt, hr]

/-- Counterexample to C1 as stated: user at distance 150 from the only
branch (radius 100), state NONE — the punch-out request fails, but
with the not-punched-in rejection, not the out-of-range one. -/
theorem claim_C1_counterexample :
    findNearest cfgFar 50 0 = some (branchFar, 150) ∧ cfgFar.PUNCH_RADIUS < 150 ∧
    (punchOut cfgFar [] 42 ⟨7, 3⟩ reqNum).1 = .notPunchedIn ∧
    (punchOut cfgFar [] 42 ⟨7, 3⟩ reqNum).1 ≠ .outOfRange branchFar.name (round2 150) := by
  decide

/-- Witness for the amended C1: punch-in at distance 150, radius 100,
is rejected as out of range with the store unchanged. -/
theorem claim_C1_witness :
    (punchIn cfgFar [] 42 ⟨7, 3⟩ reqNum = (.outOfRange branchFar.name (round2 150), []) ↔
      cfgFar.PUNCH_RADIUS < 150) ∧ cfgFar.PUNCH_RADIUS < 150 :=
  ⟨(claim_C1 cfgFar [] 42 ⟨7, 3⟩ (.num 50) (.num 0) 50 0 branchFar 150 rfl rfl (by decide)).1,
   by decide⟩

/-- Claim C2: a successful punch-in from state NONE creates exactly one
new record (appended, fresh id) with `punch_in_time = now`, the given
coordinates and null punch-out fields, answering a message starting
`Punch in successful`; from state PUNCHED_OUT it mutates the existing
record in place (punch-in fields overwritten, punch-out fields cleared,
the store's ids unchanged — no new record) answering `Punch in updated
successfully`; both responses carry the branch name and distance. -/
theorem claim_C2 (cfg : Config) (db : List Attendance) (user : Nat) (now : Timestamp)
    (rawLat rawLon : RawValue) (ula ulo : Rat) (nb : Branch) (nd : Rat)
    (hla : pyFloat rawLat = some ula) (hlo : pyFloat rawLon = some ulo)
    (hn : findNearest cfg ula ulo = some (nb, nd)) (hr : nd ≤ cfg.PUNCH_RADIUS) :
    (latestToday db user now.day = none →
       punchIn cfg db user now ⟨some rawLat, some rawLon⟩ =
         (.success ("Punch in successful" ++ " at " ++ nb.name) nb.name (round2 nd)
            ⟨nextId db, user, now, ula, ulo, none, none, none⟩,
          db ++ [⟨nextId db, user, now, ula, ulo, none, none, none⟩]))
    ∧ (∀ att t, latestToday db user now.day = some att → att.punch_out_time = some t →
       punchIn cfg db user now ⟨some rawLat, some rawLon⟩ =
         (.success ("Punch in updated successfully" ++ " at " ++ nb.name) nb.name (round2 nd)
            { att with
              punch_in_time := now, punch_in_lat := ula, punch_in_lon := ulo,
              punch_out_time := none, punch_out_lat := none, punch_out_lon := none },
          saveRecord db
            { att with
              punch_in_time := now, punch_in_lat := ula, punch_in_lon := ulo,
              punch_out_time := none, punch_out_lat := none, punch_out_lon := none }) ∧
       (saveRecord db
            { att with
              punch_in_time := now, punch_in_lat := ula, punch_in_lon := ulo,
              punch_out_time := none, punch_out_lat := none, punch_out_lon := none }).map
           (fun r => r.id) = db.map (fun r => r.id)) := by
  constructor
  · intro h
    simp [punchIn, hla, hlo, hn, h, not_lt.2 hr]
  · intro att t hatt ho
    exact ⟨by simp [punchIn, hla, hlo, hn, hatt, ho, not_lt.2 hr], saveRecord_ids db _⟩

/-- Witness for C2, create case: punch-in on an empty store. -/
theorem claim_C2_witness :
    punchIn cfgNear [] 42 ⟨7, 3⟩ reqNum =
      (.success ("Punch in successful" ++ " at " ++ branchA.name) branchA.name (round2 50)
         ⟨nextId [], 42, ⟨7, 3⟩, 50, 0, none, none, none⟩,
       [] ++ [⟨nextId [], 42, ⟨7, 3⟩, 50, 0, none, none, none⟩]) :=
  (claim_C2 cfgNear [] 42 ⟨7, 3⟩ (.num 50) (.num 0) 50 0 branchA 50
    rfl rfl (by decide) (by decide)).1 rfl

/-- Claim C3: punch-in in state PUNCHED_IN, with coordinates in range,
is rejected as already punched in, returning the existing record and
leaving the store unchanged. -/
theorem claim_C3 (cfg : Config) (db : List Attendance) (user : Nat) (now : Timestamp)
    (rawLat rawLon : RawValue) (ula ulo : Rat) (nb : Branch) (nd : Rat) (att : Attendance)
    (hla : pyFloat rawLat = some ula) (hlo : pyFloat rawLon = some ulo)
    (hn : findNearest cfg ula ulo = some (nb, nd)) (hr : nd ≤ cfg.PUNCH_RADIUS)
    (hatt : latestToday db user now.day = some att) (hout : att.punch_out_time = none) :
    punchIn cfg db user now ⟨some rawLat, some rawLon⟩ = (.alreadyPunchedIn att, db) := by
  simp [punchIn, hla, hlo, hn, hatt, hout, not_lt.2 hr]

/-- Witness for C3: a second punch-in over an open record. -/
theorem claim_C3_witness :
    punchIn cfgNear [recActive1] 42 ⟨7, 3⟩ reqNum = (.alreadyPunchedIn recActive1, [recActive1]) :=
  claim_C3 cfgNear [recActive1] 42 ⟨7, 3⟩ (.num 50) (.num 0) 50 0 branchA 50
    recActive1 rfl rfl (by decide) (by decide) (by decide) rfl

/-- Claim C4: punch-out with no active record for (user, today) — state
NONE or PUNCHED_OUT — fails with the not-punched-in rejection whatever
the coordinate values, leaves the store unchanged, and does not depend
on the branch configuration at all (the state check runs before branch
resolution). -/
theorem claim_C4 (cfg cfg2 : Config) (db : List Attendance) (user : Nat) (now : Timestamp)
    (rawLat rawLon : RawValue) (ula ulo : Rat)
    (hla : pyFloat rawLat = some ula) (hlo : pyFloat rawLon = some ulo)
    (h : firstActiveToday db user now.day = none) :
    punchOut cfg db user now ⟨some rawLat, some rawLon⟩ = (.notPunchedIn, db) ∧
    punchOut cfg db user now ⟨some rawLat, some rawLon⟩ =
      punchOut cfg2 db user now ⟨some rawLat, some rawLon⟩ := by
  constructor
  · simp [punchOut, hla, hlo, h]
  · simp [punchOut, hla, hlo, h]

/-- Witness for C4: punch-out on an empty store, under two different
branch configurations (one where the coordinate would be in range, one
where it would not). -/
theorem claim_C4_witness :
    punchOut cfgNear [] 42 ⟨7, 3⟩ reqNum = (.notPunchedIn, []) ∧
    punchOut cfgNear [] 42 ⟨7, 3⟩ reqNum = punchOut cfgFar [] 42 ⟨7, 3⟩ reqNum :=
  claim_C4 cfgNear cfgFar [] 42 ⟨7, 3⟩ (.num 50) (.num 0) 50 0 rfl rfl rfl

/-- Claim C5: a successful punch-out sets `punch_out_time = now` and
the punch-out coordinates on the existing record, saved in place; the
record's punch-in fields and owning user are untouched; the response
carries the branch name and distance. -/
theorem claim_C5 (cfg : Config) (db : List Attendance) (user : Nat) (now : Timestamp)
    (rawLat rawLon : RawValue) (ula ulo : Rat) (nb : Branch) (nd : Rat) (att : Attendance)
    (hla : pyFloat rawLat = some ula) (hlo : pyFloat rawLon = some ulo)
    (hatt : firstActiveToday db user now.day = some att)
    (hn : findNearest cfg ula ulo = some (nb, nd)) (hr : nd ≤ cfg.PUNCH_RADIUS) :
    punchOut cfg db user now ⟨some rawLat, some rawLon⟩ =
      (.success "Punch out successful" nb.name (round2 nd)
         { att with
           punch_out_time := some now
           punch_out_lat := some ula
           punch_out_lon := some ulo },
       saveRecord db
         { att with
           punch_out_time := some now
           punch_out_lat := some ula
           punch_out_lon := some ulo })
    ∧ ({ att with
         punch_out_time := some now
         punch_out_lat := some ula
         punch_out_lon := some ulo } : Attendance).punch_in_time = att.punch_in_time
    ∧ ({ att with
         punch_out_time := some now
         punch_out_lat := some ula
         punch_out_lon := some ulo } : Attendance).punch_in_lat = att.punch_in_lat
    ∧ ({ att with
         punch_out_time := some now
         punch_out_lat := some ula
         punch_out_lon := some ulo } : Attendance).punch_in_lon = att.punch_in_lon
    ∧ ({ att with
         punch_out_time := some now
         punch_out_lat := some ula
         punch_out_lon := some ulo } : Attendance).user = att.user := by
  refine ⟨?_, rfl, rfl, rfl, rfl⟩
  simp [punchOut, hla, hlo, hatt, hn, not_lt.2 hr]

/-- Witness for C5: punch-out over the open id-1 record. -/
theorem claim_C5_witness :
    punchOut cfgNear [recActive1] 42 ⟨7, 5⟩ reqNum =
      (.success "Punch out successful" branchA.name (round2 50)
         { recActive1 with
           punch_out_time := some ⟨7, 5⟩
           punch_out_lat := some 50
           punch_out_lon := some 0 },
       saveRecord [recActive1]
         { recActive1 with
           punch_out_time := some ⟨7, 5⟩
           punch_out_lat := some 50
           punch_out_lon := some 0 }) :=
  (claim_C5 cfgNear [recActive1] 42 ⟨7, 5⟩ (.num 50) (.num 0) 50 0 branchA 50
    recActive1 rfl rfl (by decide) (by decide) (by decide)).1

/-- Claim C8, as amended: a punch request missing a coordinate key is
rejected with the 400 validation failure and the store is unchanged;
but a coordinate that is present and malformed is NOT a 400 validation
rejection — `float(...)` raises and the request aborts with an
unhandled error (store still unchanged). -/
theorem claim_C8 (cfg : Config) (db : List Attendance) (user : Nat) (now : Timestamp)
    (req : Request) :
    ((req.latitude = none ∨ req.longitude = none) →
       punchIn cfg db user now req = (.validationError, db) ∧
       punchOut cfg db user now req = (.validationError, db))
    ∧ (∀ rawLat rawLon, req.latitude = some rawLat → req.longitude = some rawLon →
       (pyFloat rawLat = none ∨ pyFloat rawLon = none) →
       punchIn cfg db user now req = (.internalError, db) ∧
       punchOut cfg db user now req = (.internalError, db)) := by
  obtain ⟨la, lo⟩ := req
  constructor
  · intro h
    rcases h with h | h <;> simp only at h <;> subst h
    · cases lo <;> exact ⟨rfl, rfl⟩
    · cases la <;> exact ⟨rfl, rfl⟩
  · intro rawLat rawLon hlat hlon hbad
    simp only at hlat hlon
    subst hlat; subst hlon
    rcases hbad with h | h
    · cases hlo : pyFloat rawLon <;>
        exact ⟨by simp [punchIn, h, hlo], by simp [punchOut, h, hlo]⟩
    · cases hla : pyFloat rawLat <;>
        exact ⟨by simp [punchIn, h, hla], by simp [punchOut, h, hla]⟩

/-- Counterexample to C8 as stated: a present but malformed latitude
makes both views abort with the unhandled-conversion error, which is
not the 400 validation rejection the claim promises. -/
theorem claim_C8_counterexample :
    (punchIn cfgNear [] 42 ⟨7, 3⟩ reqBadLat).1 = .internalError ∧
    (punchOut cfgNear [] 42 ⟨7, 3⟩ reqBadLat).1 = .internalError ∧
    (PunchResponse.internalError ≠ .validationError) := by decide

/-- Witness for the amended C8: a request with no latitude key is
rejected with the validation failure by both views, store unchanged. -/
theorem claim_C8_witness :
    punchIn cfgNear [] 42 ⟨7, 3⟩ reqMissingLat = (.validationError, []) ∧
    punchOut cfgNear [] 42 ⟨7, 3⟩ reqMissingLat = (.validationError, []) :=
  (claim_C8 cfgNear [] 42 ⟨7, 3⟩ reqMissingLat).1 (Or.inl rfl)

/-- Claim C7: round-trip through the status projection, starting from
no record for (user, today).  `get_today_status` reports all-false/null
flags; after a successful punch-in it reports punched-in and not
punched-out with the punch-in time; after a subsequent successful
punch-out (same day) it reports not punched-in, punched-out, with both
timestamps.  `get_today_status` is a pure projection of the store — it
performs no mutation by construction. -/
theorem claim_C7 (cfg : Config) (db : List Attendance) (user : Nat) (now : Timestamp)
    (rawLat rawLon : RawValue) (ula ulo : Rat) (nb : Branch) (nd : Rat)
    (hla : pyFloat rawLat = some ula) (hlo : pyFloat rawLon = some ulo)
    (hn : findNearest cfg ula ulo = some (nb, nd)) (hr : nd ≤ cfg.PUNCH_RADIUS)
    (h0 : latestToday db user now.day = none) :
    get_today_status db user now.day = ⟨false, false, none, none, none, none⟩
    ∧ (punchIn cfg db user now ⟨some rawLat, some rawLon⟩).1 =
        .success ("Punch in successful" ++ " at " ++ nb.name) nb.name (round2 nd)
          ⟨nextId db, user, now, ula, ulo, none, none, none⟩
    ∧ get_today_status (punchIn cfg db user now ⟨some rawLat, some rawLon⟩).2 user now.day =
        ⟨true, false, some now, none, none, none⟩
    ∧ (∀ now2 rawLat2 rawLon2 ula2 ulo2 nb2 nd2,
        now2.day = now.day →
        pyFloat rawLat2 = some ula2 → pyFloat rawLon2 = some ulo2 →
        findNearest cfg ula2 ulo2 = some (nb2, nd2) → nd2 ≤ cfg.PUNCH_RADIUS →
        (punchOut cfg (punchIn cfg db user now ⟨some rawLat, some rawLon⟩).2 user now2
            ⟨some rawLat2, some rawLon2⟩).1 =
          .success "Punch out successful" nb2.name (round2 nd2)
            ⟨nextId db, user, now, ula, ulo, some now2, some ula2, some ulo2⟩
        ∧ get_today_status
            (punchOut cfg (punchIn cfg db user now ⟨some rawLat, some rawLon⟩).2 user now2
              ⟨some rawLat2, some rawLon2⟩).2 user now2.day =
            ⟨false, true, some now, some now2, none, none⟩) := by
  have hrows : todayRows db user now.day = [] := pickMaxId_eq_none _ h0
  have hPI : punchIn cfg db user now ⟨some rawLat, some rawLon⟩ =
      (.success ("Punch in successful" ++ " at " ++ nb.name) nb.name (round2 nd)
        ⟨nextId db, user, now, ula, ulo, none, none, none⟩,
       db ++ [⟨nextId db, user, now, ula, ulo, none, none, none⟩]) := by
    simp [punchIn, hla, hlo, hn, h0, not_lt.2 hr]
  have ht1 : todayRows (db ++ [⟨nextId db, user, now, ula, ulo, none, none, none⟩]) user now.day
      = [⟨nextId db, user, now, ula, ulo, none, none, none⟩] := by
    have hsplit : todayRows (db ++ [⟨nextId db, user, now, ula, ulo, none, none, none⟩]) user now.day =
        todayRows db user now.day ++
        todayRows [⟨nextId db, user, now, ula, ulo, none, none, none⟩] user now.day := by
      simp [todayRows, List.filter_append]
    rw [hsplit, hrows]
    simp [todayRows]
  refine ⟨by simp [get_today_status, h0], by rw [hPI], ?_, ?_⟩
  · rw [hPI]
    simp [get_today_status, latestToday, ht1, pickMaxId]
  · intro now2 rawLat2 rawLon2 ula2 ulo2 nb2 nd2 hday hla2 hlo2 hn2 hr2
    have hact0 : activeTodayRows db user now.day = [] := by
      rw [activeTodayRows_eq, hrows]
      rfl
    have ha1 : activeTodayRows (db ++ [⟨nextId db, user, now, ula, ulo, none, none, none⟩]) user now.day
        = [⟨nextId db, user, now, ula, ulo, none, none, none⟩] := by
      have hsplit : activeTodayRows (db ++ [⟨nextId db, user, now, ula, ulo, none, none, none⟩]) user now.day =
          activeTodayRows db user now.day ++
          activeTodayRows [⟨nextId db, user, now, ula, ulo, none, none, none⟩] user now.day := by
        simp [activeTodayRows, List.filter_append]
      rw [hsplit, hact0]
      simp [activeTodayRows]
    have hfa : firstActiveToday (db ++ [⟨nextId db, user, now, ula, ulo, none, none, none⟩]) user now2.day
        = some ⟨nextId db, user, now, ula, ulo, none, none, none⟩ := by
      rw [firstActiveToday, hday, ha1]
      rfl
    have hPO : punchOut cfg (db ++ [⟨nextId db, user, now, ula, ulo, none, none, none⟩]) user now2
        ⟨some rawLat2, some rawLon2⟩ =
        (.success "Punch out successful" nb2.name (round2 nd2)
          ⟨nextId db, user, now, ula, ulo, some now2, some ula2, some ulo2⟩,
         saveRecord (db ++ [⟨nextId db, user, now, ula, ulo, none, none, none⟩])
          ⟨nextId db, user, now, ula, ulo, some now2, some ula2, some ulo2⟩) := by
      simp [punchOut, hla2, hlo2, hn2, hfa, not_lt.2 hr2]
    have hfresh : saveRecord db ⟨nextId db, user, now, ula, ulo, some now2, some ula2, some ulo2⟩ = db :=
      saveRecord_fresh db _ (fun r hrm => Nat.ne_of_lt (lt_nextId db r hrm))
    have hsave : saveRecord (db ++ [⟨nextId db, user, now, ula, ulo, none, none, none⟩])
        ⟨nextId db, user, now, ula, ulo, some now2, some ula2, some ulo2⟩ =
        db ++ [⟨nextId db, user, now, ula, ulo, some now2, some ula2, some ulo2⟩] := by
      have hsplit : saveRecord (db ++ [⟨nextId db, user, now, ula, ulo, none, none, none⟩])
          ⟨nextId db, user, now, ula, ulo, some now2, some ula2, some ulo2⟩ =
          saveRecord db ⟨nextId db, user, now, ula, ulo, some now2, some ula2, some ulo2⟩ ++
          saveRecord [⟨nextId db, user, now, ula, ulo, none, none, none⟩]
            ⟨nextId db, user, now, ula, ulo, some now2, some ula2, some ulo2⟩ := by
        simp [saveRecord]
      rw [hsplit, hfresh]
      simp [saveRecord]
    have ht2 : todayRows (db ++ [⟨nextId db, user, now, ula, ulo, some now2, some ula2, some ulo2⟩]) user now2.day
        = [⟨nextId db, user, now, ula, ulo, some now2, some ula2, some ulo2⟩] := by
      rw [hday]
      have hsplit : todayRows (db ++ [⟨nextId db, user, now, ula, ulo, some now2, some ula2, some ulo2⟩]) user now.day =
          todayRows db user now.day ++
          todayRows [⟨nextId db, user, now, ula, ulo, some now2, some ula2, some ulo2⟩] user now.day := by
        simp [todayRows, List.filter_append]
      rw [hsplit, hrows]
      simp [todayRows]
    constructor
    · rw [hPI, hPO]
    · rw [hPI, hPO]
      show get_today_status (saveRecord _ _) user now2.day = _
      rw [hsave]
      simp [get_today_status, latestToday, ht2, pickMaxId]

/-- Witness for C7: the full cycle on an empty store — empty status,
punch-in at day 7 tick 3, punch-out at day 7 tick 4. -/
theorem claim_C7_witness :
    get_today_status [] 42 7 = ⟨false, false, none, none, none, none⟩ ∧
    get_today_status (punchIn cfgNear [] 42 ⟨7, 3⟩ reqNum).2 42 7 =
      ⟨true, false, some ⟨7, 3⟩, none, none, none⟩ ∧
    get_today_status
        (punchOut cfgNear (punchIn cfgNear [] 42 ⟨7, 3⟩ reqNum).2 42 ⟨7, 4⟩ reqNum).2 42 7 =
      ⟨false, true, some ⟨7, 3⟩, some ⟨7, 4⟩, none, none⟩ := by
  have h := claim_C7 cfgNear [] 42 ⟨7, 3⟩ (.num 50) (.num 0) 50 0 branchA 50
    rfl rfl (by decide) (by decide) rfl
  exact ⟨h.1, h.2.2.1,
    (h.2.2.2 ⟨7, 4⟩ (.num 50) (.num 0) 50 0 branchA 50 rfl rfl rfl (by decide) (by decide)).2⟩
